import Mathlib

/-!
Verification of the FastAPI demo service (src/app.py).

The source declares a FastAPI application with two GET routes, `root` and
`healthz`, each returning a constant dictionary of string keys and string
values, and a startup block that computes
`port = int(os.environ.get("PORT", 8000))` and then binds a uvicorn server
on host "0.0.0.0" at that port.

We embed, from the source: the two handler bodies, the route table declared
by the decorators, and the startup port computation, including the base-10
string-parsing semantics of Python's built-in `int` on ASCII input
(whitespace stripping, an optional sign, and underscores between digits).
The request-dispatch step itself is framework code (FastAPI/Starlette), not
part of this repository, so it is modelled from the spec where marked.
-/

/-- A JSON object whose values are strings — the only JSON shape the two
handlers in src/app.py produce (each returns a dict of string literals). -/
abbrev JsonObj := List (String × String)

/-- Body returned by `root` in src/app.py line 9:
`return {"message": "Hello from FastAPI on AKS!"}`. -/
def root : JsonObj := [("message", "Hello from FastAPI on AKS!")]

/-- Body returned by `healthz` in src/app.py line 14:
`return {"status": "ok"}`. -/
def healthz : JsonObj := [("status", "ok")]

/-- An incoming HTTP request: method, path, and the request data the two
handlers never look at (headers, query string, body). -/
structure Request where
  method : String
  path : String
  headers : List (String × String)
  query : List (String × String)
  body : String
deriving DecidableEq

/-- An HTTP response: a status code and, for the two declared routes, a
JSON object body.  Error responses carry the framework default body, which
the spec leaves unspecified; we record it as `none`. -/
structure Response where
  status : Nat
  body : Option JsonObj
deriving DecidableEq

/-- A Python function body embeds as a state transformer on the module
globals.  Both handler bodies in src/app.py are a single `return` of a
dict literal: they read and write no global, so they leave any state
untouched and ignore it. -/
def Handler (σ : Type) := σ → JsonObj × σ

/-- Embedding of `def root(): return {"message": ...}` (src/app.py 7-9):
returns the constant body, state unchanged. -/
def rootCall {σ : Type} : Handler σ := fun st => (root, st)

/-- Embedding of `def healthz(): return {"status": "ok"}` (src/app.py 12-14):
returns the constant body, state unchanged. -/
def healthzCall {σ : Type} : Handler σ := fun st => (healthz, st)

/-- The route table registered by the decorators `@app.get("/")` and
`@app.get("/healthz")` in src/app.py: each entry is (method, path, handler). -/
def appRoutes (σ : Type) : List (String × String × Handler σ) :=
  [("GET", "/", rootCall), ("GET", "/healthz", healthzCall)]

/-- First route whose method and path both match the request. -/
def findRoute {σ : Type} : List (String × String × Handler σ) → String → String → Option (Handler σ)
  | [], _, _ => none
  | (m, p, h) :: rest, meth, path =>
    if meth = m ∧ path = p then some h else findRoute rest meth path

/-- Whether some declared route has the given path (any method). -/
def pathDeclared {σ : Type} : List (String × String × Handler σ) → String → Bool
  | [], _ => false
  | (_, p, _) :: rest, path => if path = p then true else pathDeclared rest path

/-- Modelled from the spec: the dispatch of a request to a handler is
FastAPI/Starlette framework code, not part of this repository; src/app.py
only declares the route table.  Per the spec (sections 4.1, 6, 7): a request
matching a declared route's method and path runs that handler and returns
HTTP 200 with its body; a request whose path matches a declared route but
whose method does not returns 405; any other path returns 404. -/
def dispatchSt {σ : Type} (req : Request) (st : σ) : Response × σ :=
  match findRoute (appRoutes σ) req.method req.path with
  | some h =>
    let r := h st
    ({ status := 200, body := some r.1 }, r.2)
  | none =>
    if pathDeclared (appRoutes σ) req.path then
      ({ status := 405, body := none }, st)
    else
      ({ status := 404, body := none }, st)

/-- A sequence of `n` identical requests against the same server, the
module state threaded from each call to the next. -/
def runCalls {σ : Type} (req : Request) : Nat → σ → List Response × σ
  | 0, st => ([], st)
  | n + 1, st =>
    let r := dispatchSt req st
    let rest := runCalls req n r.2
    (r.1 :: rest.1, rest.2)

/-- Serialization of a JSON object to its wire bytes, compact separators
as FastAPI's JSONResponse uses (no escaping arises: no key or value that
this service produces contains a quote or backslash). -/
def serializeJsonObj (o : JsonObj) : String :=
  "\x7b" ++ String.intercalate "," (o.map (fun kv => "\"" ++ kv.1 ++ "\":\"" ++ kv.2 ++ "\"")) ++ "\x7d"

/-- The body bytes of a response, when it has a body. -/
def respBytes (r : Response) : Option String := r.body.map serializeJsonObj

/-- The ASCII whitespace characters Python's `int` strips from both ends
of its string argument. -/
def isPySpace (c : Char) : Bool :=
  c == ' ' || c == '\t' || c == '\n' || c == '\r' || c == '\x0b' || c == '\x0c'

/-- Strip leading and trailing Python whitespace from a character list. -/
def stripChars (cs : List Char) : List Char :=
  ((cs.dropWhile isPySpace).reverse.dropWhile isPySpace).reverse

/-- Accumulate the base-10 value of a digit sequence following Python's
digit grammar `digit (["_"] digit)*`: an underscore may stand only between
two digits.  `afterDigit` records whether the previous character was a
digit (so an underscore is currently allowed, and the end of input is
currently acceptable). -/
def pyDigitsAux (afterDigit : Bool) (acc : Nat) : List Char → Option Nat
  | [] => if afterDigit then some acc else none
  | c :: rest =>
    if c = '_' then
      if afterDigit then pyDigitsAux false acc rest else none
    else if c.isDigit then pyDigitsAux true (acc * 10 + (c.toNat - 48)) rest
    else none

/-- A nonempty digit sequence (single underscores allowed between digits),
its base-10 value. -/
def pyDigits (cs : List Char) : Option Nat := pyDigitsAux false 0 cs

/-- Sign handling of Python's `int`: an optional leading `+` or `-`
followed by a digit sequence. -/
def pyIntCore : List Char → Option Int
  | [] => none
  | c :: rest =>
    if c = '+' then (pyDigits rest).map (fun n => (n : Int))
    else if c = '-' then (pyDigits rest).map (fun n => -(n : Int))
    else (pyDigits (c :: rest)).map (fun n => (n : Int))

/-- Python's built-in `int` applied to a string (base 10, ASCII input):
strips whitespace from both ends, then an optional sign and a digit
sequence with optional single underscores between digits.  `none` is the
`ValueError` Python raises on any other input. -/
def pythonInt (s : String) : Option Int := pyIntCore (stripChars s.data)

/-- Embedding of `port = int(os.environ.get("PORT", 8000))`
(src/app.py line 18).  The argument is the value of the `PORT` environment
variable when set, else the default: `int` applied to the integer 8000 is
the identity. -/
def readPort (portVar : Option String) : Option Int :=
  match portVar with
  | none => some 8000
  | some s => pythonInt s

/-- The server a successful startup produces: host and port of the bind,
as passed to `uvicorn.run` (src/app.py line 19). -/
structure ServerState where
  host : String
  port : Int
deriving DecidableEq

/-- Startup (src/app.py lines 18-19): parse the port, then start the
server on "0.0.0.0" at that port.  A parse failure aborts startup before
the server exists, so no connection is ever accepted. -/
def startServer (portVar : Option String) : Option ServerState :=
  (readPort portVar).map (fun p => { host := "0.0.0.0", port := p })

/-- A nonempty all-ASCII-digit string. -/
def isDigitStr (s : String) : Bool :=
  !s.data.isEmpty && s.data.all Char.isDigit

/-- The base-10 value of a digit string. -/
def decimalVal (s : String) : Nat :=
  s.data.foldl (fun a c => a * 10 + (c.toNat - 48)) 0


lemma dispatchSt_eq {σ : Type} (req : Request) (st : σ) :
    dispatchSt req st =
      if req.method = "GET" ∧ req.path = "/" then
        ({ status := 200, body := some root }, st)
      else if req.method = "GET" ∧ req.path = "/healthz" then
        ({ status := 200, body := some healthz }, st)
      else if req.path = "/" ∨ req.path = "/healthz" then
        ({ status := 405, body := none }, st)
      else ({ status := 404, body := none }, st) := by
  by_cases h1 : req.method = "GET" <;> by_cases h2 : req.path = "/" <;>
    by_cases h3 : req.path = "/healthz" <;>
      simp +decide [dispatchSt, findRoute, pathDeclared, appRoutes, rootCall, healthzCall, h1, h2, h3]

lemma runCalls_eq {σ : Type} (req : Request) (n : Nat) (st : σ) :
    runCalls req n st = (List.replicate n (dispatchSt req st).1, st) := by
  induction n with
  | zero => simp [runCalls]
  | succ n ih =>
    have hsnd : (dispatchSt req st).2 = st := by
      rw [dispatchSt_eq]; split <;> [rfl; split <;> [rfl; split <;> rfl]]
    simp [runCalls, List.replicate, hsnd, ih]

lemma dropWhile_eq_self_of_all {p : Char → Bool} :
    ∀ cs : List Char, (∀ c ∈ cs, p c = false) → cs.dropWhile p = cs := by
  intro cs h
  cases cs with
  | nil => rfl
  | cons c rest => simp [List.dropWhile, h c (by simp)]

lemma stripChars_eq_self (cs : List Char) (h : ∀ c ∈ cs, isPySpace c = false) :
    stripChars cs = cs := by
  unfold stripChars
  rw [dropWhile_eq_self_of_all cs h,
      dropWhile_eq_self_of_all cs.reverse (fun c hc => h c (List.mem_reverse.mp hc)),
      List.reverse_reverse]

lemma isPySpace_of_isDigit (c : Char) (h : c.isDigit = true) : isPySpace c = false := by
  by_contra hs
  rw [Bool.not_eq_false] at hs
  simp only [isPySpace, Bool.or_eq_true, beq_iff_eq, or_assoc] at hs
  rcases hs with rfl | rfl | rfl | rfl | rfl | rfl <;> exact absurd h (by decide)

lemma pyDigitsAux_all_digits :
    ∀ (cs : List Char) (acc : Nat), (∀ c ∈ cs, c.isDigit = true) →
      pyDigitsAux true acc cs = some (cs.foldl (fun a c => a * 10 + (c.toNat - 48)) acc) := by
  intro cs
  induction cs with
  | nil => intro acc h; simp [pyDigitsAux]
  | cons c rest ih =>
    intro acc h
    have hc : c.isDigit = true := h c (by simp)
    have hne : c ≠ '_' := by rintro rfl; exact absurd hc (by decide)
    rw [List.foldl_cons]
    simp only [pyDigitsAux, if_neg hne, hc, if_true]
    exact ih _ (fun d hd => h d (List.mem_cons_of_mem _ hd))

lemma pythonInt_digitStr (s : String) (h : isDigitStr s = true) :
    pythonInt s = some (decimalVal s) := by
  unfold isDigitStr at h
  rw [Bool.and_eq_true] at h
  obtain ⟨h1, hall⟩ := h
  rw [List.all_eq_true] at hall
  have hne : s.data ≠ [] := by
    intro he; rw [he] at h1; exact absurd h1 (by decide)
  unfold pythonInt
  rw [stripChars_eq_self s.data (fun c hc => isPySpace_of_isDigit c (hall c hc))]
  cases hd : s.data with
  | nil => exact absurd hd hne
  | cons c rest =>
    have hc : c.isDigit = true := hall c (by rw [hd]; simp)
    have hplus : c ≠ '+' := by rintro rfl; exact absurd hc (by decide)
    have hminus : c ≠ '-' := by rintro rfl; exact absurd hc (by decide)
    have hunder : c ≠ '_' := by rintro rfl; exact absurd hc (by decide)
    have hrest : ∀ d ∈ rest, d.isDigit = true :=
      fun d hdm => hall d (by rw [hd]; exact List.mem_cons_of_mem _ hdm)
    simp only [pyIntCore, if_neg hplus, if_neg hminus, pyDigits, pyDigitsAux,
      if_neg hunder, hc, if_true]
    rw [pyDigitsAux_all_digits rest _ hrest]
    simp [decimalVal, hd]

/-- C1: every GET request for path "/" is answered with status 200 and body
exactly the JSON object with the single field message = "Hello from FastAPI
on AKS!", whatever the server state. -/
theorem get_root_ok {σ : Type} (req : Request) (st : σ)
    (hm : req.method = "GET") (hp : req.path = "/") :
    (dispatchSt req st).1 = { status := 200, body := some root } := by
  rw [dispatchSt_eq]
  simp [hm, hp]

/-- Witness for C1 at a concrete request. -/
theorem get_root_ok_witness :
    (dispatchSt ⟨"GET", "/", [("accept", "text/html")], [], ""⟩ ()).1 =
      { status := 200, body := some root } :=
  get_root_ok _ () rfl rfl

/-- C2: every GET request for path "/healthz" is answered with status 200
and body exactly the JSON object with the single field status = "ok". -/
theorem get_healthz_ok {σ : Type} (req : Request) (st : σ)
    (hm : req.method = "GET") (hp : req.path = "/healthz") :
    (dispatchSt req st).1 = { status := 200, body := some healthz } := by
  rw [dispatchSt_eq]
  simp [hm, hp]

/-- Witness for C2 at a concrete request. -/
theorem get_healthz_ok_witness :
    (dispatchSt ⟨"GET", "/healthz", [], [], ""⟩ ()).1 =
      { status := 200, body := some healthz } :=
  get_healthz_ok _ () rfl rfl

/-- C3: with PORT unset startup binds 0.0.0.0:8000; with PORT set to a
decimal digit string, startup binds that port. -/
theorem port_config_ok :
    startServer none = some { host := "0.0.0.0", port := 8000 } ∧
    ∀ s : String, isDigitStr s = true →
      startServer (some s) = some { host := "0.0.0.0", port := (decimalVal s : Int) } := by
  refine ⟨rfl, fun s h => ?_⟩
  simp [startServer, readPort, pythonInt_digitStr s h]

/-- Witness for C3 at PORT="9000". -/
theorem port_config_ok_witness :
    isDigitStr "9000" = true ∧
    startServer (some "9000") = some { host := "0.0.0.0", port := (9000 : Int) } :=
  ⟨by decide, by exact port_config_ok.2 "9000" (by decide)⟩

/-- C4: with PORT set to a string `int` rejects (such as "abc"), startup
fails before any server exists; and a parse failure of PORT is the only way
the startup configuration step can fail. -/
theorem invalid_port_fails_startup :
    pythonInt "abc" = none ∧
    ∀ pv : Option String,
      (startServer pv = none ↔ ∃ t, pv = some t ∧ pythonInt t = none) := by
  refine ⟨by decide, fun pv => ?_⟩
  cases pv with
  | none => simp [startServer, readPort]
  | some t =>
    cases hq : pythonInt t with
    | none => simp [startServer, readPort, hq]
    | some v => simp [startServer, readPort, hq]

/-- C5: a request whose path is neither "/" nor "/healthz" matches no
declared route and is answered with status 404, whatever its method. -/
theorem unknown_path_404 {σ : Type} (req : Request) (st : σ)
    (h1 : req.path ≠ "/") (h2 : req.path ≠ "/healthz") :
    (dispatchSt req st).1.status = 404 := by
  rw [dispatchSt_eq]
  simp [h1, h2]

/-- Witness for C5 at GET /unknown. -/
theorem unknown_path_404_witness :
    (dispatchSt ⟨"GET", "/unknown", [], [], ""⟩ ()).1.status = 404 :=
  unknown_path_404 _ () (by decide) (by decide)

/-- C6: a request for "/" or "/healthz" whose method is not GET is answered
with status 405. -/
theorem wrong_method_405 {σ : Type} (req : Request) (st : σ)
    (hp : req.path = "/" ∨ req.path = "/healthz") (hm : req.method ≠ "GET") :
    (dispatchSt req st).1.status = 405 := by
  rw [dispatchSt_eq]
  rcases hp with hp | hp <;> simp [hp, hm]

/-- Witness for C6 at POST /. -/
theorem wrong_method_405_witness :
    (dispatchSt ⟨"POST", "/", [], [], ""⟩ ()).1.status = 405 :=
  wrong_method_405 _ () (Or.inl rfl) (by decide)

/-- C7: a sequence of n identical GET requests to "/" or "/healthz" leaves
the state unchanged and every call's body serializes to the same bytes:
the list of body byte strings is n copies of a single byte string. -/
theorem repeated_calls_idempotent {σ : Type} (req : Request) (n : Nat) (st : σ)
    (hm : req.method = "GET") (hp : req.path = "/" ∨ req.path = "/healthz") :
    (runCalls req n st).2 = st ∧
    (runCalls req n st).1.map respBytes =
      List.replicate n (respBytes (dispatchSt req st).1) := by
  rw [runCalls_eq]
  exact ⟨rfl, by simp⟩

/-- Witness for C7: three identical GET / calls. -/
theorem repeated_calls_idempotent_witness :
    (runCalls ⟨"GET", "/", [], [], ""⟩ 3 ()).2 = () ∧
    (runCalls ⟨"GET", "/", [], [], ""⟩ 3 ()).1.map respBytes =
      List.replicate 3 (respBytes (dispatchSt ⟨"GET", "/", [], [], ""⟩ ()).1) :=
  repeated_calls_idempotent _ 3 () rfl (Or.inl rfl)

/-- C8: the response depends only on the request's method and path: two
requests agreeing on those, with arbitrary differing headers, query
strings or bodies, get equal responses. -/
theorem handlers_noninterference {σ : Type} (r1 r2 : Request) (st : σ)
    (hm : r1.method = r2.method) (hp : r1.path = r2.path) :
    dispatchSt r1 st = dispatchSt r2 st := by
  rw [dispatchSt_eq, dispatchSt_eq, hm, hp]

/-- Witness for C8: headers, query and body do not influence the response. -/
theorem handlers_noninterference_witness :
    dispatchSt ⟨"GET", "/", [("x-token", "secret")], [("debug", "1")], "payload"⟩ () =
      dispatchSt ⟨"GET", "/", [], [], ""⟩ () :=
  handlers_noninterference _ _ () rfl rfl

/-- C9: both handlers return their constant body and leave any module
state exactly as it was, and a dispatched request never changes the
state: the handlers read and write no shared state. -/
theorem handlers_no_side_effects {σ : Type} (st : σ) (req : Request) :
    rootCall st = (root, st) ∧ healthzCall st = (healthz, st) ∧
    (dispatchSt req st).2 = st := by
  refine ⟨rfl, rfl, ?_⟩
  rw [dispatchSt_eq]
  split <;> [rfl; split <;> [rfl; split <;> rfl]]

/-- C10: the PORT parse accepts everything Python's `int` accepts —
surrounding whitespace, an explicit sign, underscores between digits — so
values like -1 or 99999 parse fine, and whatever `int` returns is bound
without any port-range check. -/
theorem port_parse_python_semantics :
    pythonInt "  -1 " = some (-1) ∧
    pythonInt "+8000" = some 8000 ∧
    pythonInt "8_000" = some 8000 ∧
    pythonInt "-1" = some (-1) ∧
    pythonInt "99999" = some 99999 ∧
    ∀ (s : String) (n : Int), pythonInt s = some n →
      readPort (some s) = some n ∧
      startServer (some s) = some { host := "0.0.0.0", port := n } := by
  refine ⟨by decide, by decide, by decide, by decide, by decide, fun s n h => ?_⟩
  exact ⟨h, by simp [startServer, readPort, h]⟩

/-- Witness for C10: PORT="99999" parses and is bound although it is
outside the TCP port range. -/
theorem port_parse_python_semantics_witness :
    readPort (some "99999") = some 99999 ∧
    startServer (some "99999") = some { host := "0.0.0.0", port := 99999 } :=
  port_parse_python_semantics.2.2.2.2.2 "99999" 99999 (by decide)
